import Mathlib

/-!
Verification development for the rockpro64fanadjust repository.

The repository is a temperature-driven fan controller.  Its sources exist in
three revisions:
  revision A: the current `src/src/main.c` (first part of the file),
  revision B: the superseded revision appended to `src/src/main.c`,
  revision C: the early revision in `src/unnamed/part_000`.

The development shallowly embeds the C code over exact rational arithmetic
(`ℚ` models the C `double` values; the arithmetic performed by the program on
realistic inputs is exact at the granularity the claims speak about).  File
system and libc effects (fopen/getline/fwrite/readdir outcomes) are modelled
as explicit oracles: an `Option`/`Bool` input describes whether the
corresponding libc call succeeds, exactly mirroring the branch structure of
the C functions.
-/

namespace Rockpro64Fan

/-! ## Speed policy

`speed_rev_a` embeds the temperature-to-speed computation of revision A
(`src/src/main.c`, lines 215 and 230-236): `multiplier` is
`MAX_FAN_SPEED / (max_temp - min_temp)`; a temperature strictly below
`min_temp` gives 0, strictly above `max_temp` gives 255, and otherwise the
linear formula applies.  `speed_rev_b` embeds the appended revision
(lines 580 and 588-594) which uses non-strict comparisons.  `speed_rev_c`
embeds `src/unnamed/part_000` (lines 175 and 198-204), which matches
revision A.  -/

def speed_rev_a (min_temp max_temp temp : ℚ) : ℚ :=
  let multiplier : ℚ := 255 / (max_temp - min_temp)
  if temp < min_temp then 0
  else if temp > max_temp then 255
  else multiplier * (temp - min_temp)

def speed_rev_b (min_temp max_temp temp : ℚ) : ℚ :=
  let multiplier : ℚ := 255 / (max_temp - min_temp)
  if temp ≤ min_temp then 0
  else if temp ≥ max_temp then 255
  else multiplier * (temp - min_temp)

def speed_rev_c (min_temp max_temp temp : ℚ) : ℚ :=
  let multiplier : ℚ := 255 / (max_temp - min_temp)
  if temp < min_temp then 0
  else if temp > max_temp then 255
  else multiplier * (temp - min_temp)

/-- The pure speed function exactly as the specification states it
(section 4.3 of the spec): `min_fan_speed` at or below `min_temp`, 255 at or
above `max_temp`, and the affine interpolation strictly in between.  This
definition follows the spec's words and is compared against the definitions
taken from the source. -/
def speed_spec (min_fan_speed min_temp max_temp temp : ℚ) : ℚ :=
  if temp ≤ min_temp then min_fan_speed
  else if temp ≥ max_temp then 255
  else min_fan_speed + (255 - min_fan_speed) * (temp - min_temp) / (max_temp - min_temp)

/-- C1: for every configuration with `min_temp < max_temp`, the target fan
speed computed in each loop iteration of the current revision (the loop
computes its target exactly by `speed_rev_a`, see `loop_rev_a` below) equals
the spec's pure speed function at the floor `min_fan_speed = 0` (the program
never takes a `min_fan_speed` argument, so the floor is the unsupplied
default 0). -/
theorem c1_speed_matches_spec (min_temp max_temp temp : ℚ)
    (h : min_temp < max_temp) :
    speed_rev_a min_temp max_temp temp = speed_spec 0 min_temp max_temp temp := by
  have hne : max_temp - min_temp ≠ 0 := sub_ne_zero.mpr (ne_of_gt h)
  unfold speed_rev_a speed_spec
  by_cases h1 : temp < min_temp
  · rw [if_pos h1, if_pos (le_of_lt h1)]
  · by_cases h2 : temp > max_temp
    · rw [if_neg h1, if_pos h2,
        if_neg (not_le.mpr (lt_trans h h2) : ¬ temp ≤ min_temp), if_pos (le_of_lt h2)]
    · rw [if_neg h1, if_neg h2]
      by_cases h3 : temp ≤ min_temp
      · have heq : temp = min_temp := le_antisymm h3 (not_lt.mp h1)
        rw [if_pos h3, heq]
        simp
      · rw [if_neg h3]
        by_cases h4 : temp ≥ max_temp
        · have heq : temp = max_temp := le_antisymm (not_lt.mp h2) h4
          rw [if_pos h4, heq]
          exact div_mul_cancel₀ 255 hne
        · rw [if_neg h4]
          field_simp

/-- C1 witness: the theorem applied at the concrete configuration
`min_temp = 40000`, `max_temp = 80000`, `temp = 60000`. -/
theorem c1_speed_matches_spec_witness :
    (40000 : ℚ) < 80000 ∧
      speed_rev_a 40000 80000 60000 = speed_spec 0 40000 80000 60000 :=
  ⟨by norm_num, c1_speed_matches_spec 40000 80000 60000 (by norm_num)⟩

/-- C7: for every configuration with `min_temp < max_temp`, the output of the
speed computation of the current revision always lies within
`[min_fan_speed, 255]` (the floor being the default 0), and on temperatures
strictly between the bounds it is affine with non-negative slope and
monotonically non-decreasing. -/
theorem c7_bounds_linear_monotone (min_temp max_temp : ℚ)
    (h : min_temp < max_temp) :
    (∀ temp, 0 ≤ speed_rev_a min_temp max_temp temp ∧
        speed_rev_a min_temp max_temp temp ≤ 255) ∧
    (∃ a b : ℚ, 0 ≤ a ∧ ∀ temp, min_temp < temp → temp < max_temp →
        speed_rev_a min_temp max_temp temp = a * temp + b) ∧
    (∀ t₁ t₂ : ℚ, min_temp < t₁ → t₁ ≤ t₂ → t₂ < max_temp →
        speed_rev_a min_temp max_temp t₁ ≤ speed_rev_a min_temp max_temp t₂) := by
  have hd : (0 : ℚ) < max_temp - min_temp := by linarith
  have hmul : (0 : ℚ) ≤ 255 / (max_temp - min_temp) :=
    div_nonneg (by norm_num) (le_of_lt hd)
  refine ⟨?_, ?_, ?_⟩
  · intro temp
    unfold speed_rev_a
    split_ifs with h1 h2
    · norm_num
    · norm_num
    · constructor
      · exact mul_nonneg hmul (by linarith)
      · have hle : 255 / (max_temp - min_temp) * (temp - min_temp) ≤
            255 / (max_temp - min_temp) * (max_temp - min_temp) :=
          mul_le_mul_of_nonneg_left (by linarith) hmul
        have hcancel : 255 / (max_temp - min_temp) * (max_temp - min_temp) = 255 :=
          div_mul_cancel₀ 255 (ne_of_gt hd)
        linarith [hle, hcancel.le, hcancel.ge]
  · refine ⟨255 / (max_temp - min_temp),
      -(255 / (max_temp - min_temp) * min_temp), hmul, ?_⟩
    intro temp hlo hhi
    unfold speed_rev_a
    rw [if_neg (not_lt.mpr (le_of_lt hlo)), if_neg (not_lt.mpr (le_of_lt hhi))]
    ring
  · intro t₁ t₂ h1 h12 h2
    unfold speed_rev_a
    rw [if_neg (not_lt.mpr (le_of_lt h1)), if_neg (not_lt.mpr (by linarith : t₁ ≤ max_temp)),
      if_neg (not_lt.mpr (by linarith : min_temp ≤ t₂)),
      if_neg (not_lt.mpr (le_of_lt h2))]
    exact mul_le_mul_of_nonneg_left (by linarith) hmul

/-- C7 witness: the theorem applied at the concrete configuration
`min_temp = 40000`, `max_temp = 80000`. -/
theorem c7_bounds_linear_monotone_witness :
    (40000 : ℚ) < 80000 ∧
    ((∀ temp, 0 ≤ speed_rev_a 40000 80000 temp ∧
        speed_rev_a 40000 80000 temp ≤ 255) ∧
    (∃ a b : ℚ, 0 ≤ a ∧ ∀ temp, 40000 < temp → temp < 80000 →
        speed_rev_a 40000 80000 temp = a * temp + b) ∧
    (∀ t₁ t₂ : ℚ, 40000 < t₁ → t₁ ≤ t₂ → t₂ < 80000 →
        speed_rev_a 40000 80000 t₁ ≤ speed_rev_a 40000 80000 t₂)) :=
  ⟨by norm_num, c7_bounds_linear_monotone 40000 80000 (by norm_num)⟩

/-- C10: under exact arithmetic and for every configuration with
`min_temp < max_temp`, the strict-comparison mapping of the current revision,
the non-strict mapping of the superseded middle revision, and the
strict-comparison mapping of the early revision all compute the same value:
the linear formula agrees with the clamped endpoints at both boundaries. -/
theorem c10_revisions_agree (min_temp max_temp temp : ℚ)
    (h : min_temp < max_temp) :
    speed_rev_a min_temp max_temp temp = speed_rev_b min_temp max_temp temp ∧
    speed_rev_c min_temp max_temp temp = speed_rev_b min_temp max_temp temp := by
  have hd : (0 : ℚ) < max_temp - min_temp := by linarith
  have hab : speed_rev_a min_temp max_temp temp = speed_rev_b min_temp max_temp temp := by
    unfold speed_rev_a speed_rev_b
    by_cases h1 : temp < min_temp
    · rw [if_pos h1, if_pos (le_of_lt h1)]
    · by_cases h2 : temp > max_temp
      · rw [if_neg h1, if_pos h2,
          if_neg (not_le.mpr (lt_trans h h2) : ¬ temp ≤ min_temp), if_pos (le_of_lt h2)]
      · rw [if_neg h1, if_neg h2]
        by_cases h3 : temp ≤ min_temp
        · have heq : temp = min_temp := le_antisymm h3 (not_lt.mp h1)
          rw [if_pos h3, heq]
          simp
        · rw [if_neg h3]
          by_cases h4 : temp ≥ max_temp
          · have heq : temp = max_temp := le_antisymm (not_lt.mp h2) h4
            rw [if_pos h4, heq]
            exact div_mul_cancel₀ 255 (ne_of_gt hd)
          · rw [if_neg h4]
  exact ⟨hab, hab⟩

/-- C10 witness: the theorem applied at the concrete configuration
`min_temp = 40000`, `max_temp = 80000`, `temp = 80000` (a boundary point,
where the two comparison styles take different branches). -/
theorem c10_revisions_agree_witness :
    (40000 : ℚ) < 80000 ∧
    (speed_rev_a 40000 80000 80000 = speed_rev_b 40000 80000 80000 ∧
     speed_rev_c 40000 80000 80000 = speed_rev_b 40000 80000 80000) :=
  ⟨by norm_num, c10_revisions_agree 40000 80000 80000 (by norm_num)⟩

/-! ## Device locator

`find_hwmon_path` embeds revision A's `find_hwmon_path` (`src/src/main.c`,
lines 56-108).  A directory listing is a list of entries; each entry carries
its directory name `dname` (the `d_name` of the `dirent`) and `nameLine`,
the first line of its `name` attribute file as `getline` returns it
(including the trailing newline), or `none` when `read_line` fails (fopen,
getline or fclose failure).  A `readdir` failure truncates the listing and,
exactly as in the C code (which falls through to `status = -1`), is
indistinguishable from exhausting the directory: both produce the error
result.  The match `!strncmp(name, name_value, name_length)` with
`name_length = strlen(name)` compares only the first `strlen(name)` bytes,
which is a prefix test on the stored line. -/

structure HEntry where
  dname : List Char
  nameLine : Option (List Char)
deriving DecidableEq

/-- Chars of the literal "cpu" (`HWMON_NAME_CPU`). -/
def cpu_name : List Char := ['c', 'p', 'u']

/-- Chars of the literal "pwmfan" (`HWMON_NAME_FAN`). -/
def fan_name : List Char := ['p', 'w', 'm', 'f', 'a', 'n']

/-- Chars of the literal "/sys/class/hwmon/" (`HWMON_DIR_PATH`). -/
def hwmon_dir_chars : List Char :=
  ['/', 's', 'y', 's', '/', 'c', 'l', 'a', 's', 's', '/', 'h', 'w', 'm', 'o', 'n', '/']

/-- The hidden-entry test `dir_entry->d_name[0] == '.'` (an empty `d_name`
has a NUL first byte, which is not the marker). -/
def entry_hidden (e : HEntry) : Bool :=
  (e.dname.headD (Char.ofNat 0)) == '.'

/-- Revision A `find_hwmon_path`, lines 73-101 of `src/src/main.c`: iterate
the listing, skip hidden entries, fail if an entry's name file cannot be
read, return `HWMON_DIR_PATH ++ d_name` of the first entry whose name line
has the requested name as a prefix, and fail after exhausting the listing. -/
def find_hwmon_path (name : List Char) : List HEntry → Except Unit (List Char)
  | [] => Except.error ()
  | e :: rest =>
    if entry_hidden e then find_hwmon_path name rest
    else
      match e.nameLine with
      | none => Except.error ()
      | some line =>
        if List.isPrefixOf name line then Except.ok (hwmon_dir_chars ++ e.dname)
        else find_hwmon_path name rest

/-- Trimming of a trailing newline, used to state what the name attribute of
an entry is in the specification's sense. -/
def trim_trailing_newline (l : List Char) : List Char :=
  if l.getLast? = some '\n' then l.dropLast else l

/-- The locator's amended contract as a relation: `LocatesTo name entries p`
holds when `p` is the registry path of the first non-hidden entry whose
readable name line has `name` as a prefix, all earlier entries being hidden
or readable non-matches. -/
inductive LocatesTo (name : List Char) : List HEntry → List Char → Prop
  | found {e : HEntry} {line : List Char} (rest : List HEntry)
      (hh : entry_hidden e = false) (hl : e.nameLine = some line)
      (hp : List.isPrefixOf name line = true) :
      LocatesTo name (e :: rest) (hwmon_dir_chars ++ e.dname)
  | skip_hidden {e : HEntry} {rest : List HEntry} {p : List Char}
      (hh : entry_hidden e = true) (h : LocatesTo name rest p) :
      LocatesTo name (e :: rest) p
  | skip_nomatch {e : HEntry} {line : List Char} {rest : List HEntry} {p : List Char}
      (hh : entry_hidden e = false) (hl : e.nameLine = some line)
      (hp : List.isPrefixOf name line = false) (h : LocatesTo name rest p) :
      LocatesTo name (e :: rest) p

theorem find_hwmon_ok_iff (name : List Char) :
    ∀ (entries : List HEntry) (p : List Char),
      find_hwmon_path name entries = Except.ok p ↔ LocatesTo name entries p := by
  intro entries
  induction entries with
  | nil =>
    intro p
    constructor
    · intro hfind
      exact absurd hfind (by simp [find_hwmon_path])
    · intro hl
      cases hl
  | cons e rest ih =>
    intro p
    constructor
    · intro hfind
      by_cases hh : entry_hidden e = true
      · have hstep : find_hwmon_path name (e :: rest) = find_hwmon_path name rest := by
          simp [find_hwmon_path, hh]
        rw [hstep] at hfind
        exact LocatesTo.skip_hidden hh ((ih p).mp hfind)
      · have hh' : entry_hidden e = false := by
          simpa using hh
        cases hline : e.nameLine with
        | none =>
          have hstep : find_hwmon_path name (e :: rest) = Except.error () := by
            simp [find_hwmon_path, hh', hline]
          rw [hstep] at hfind
          cases hfind
        | some line =>
          by_cases hp : List.isPrefixOf name line = true
          · have hstep : find_hwmon_path name (e :: rest)
                = Except.ok (hwmon_dir_chars ++ e.dname) := by
              simp [find_hwmon_path, hh', hline, hp]
            rw [hstep] at hfind
            cases hfind
            exact LocatesTo.found rest hh' hline hp
          · have hp' : List.isPrefixOf name line = false := by
              simp only [Bool.not_eq_true] at hp
              exact hp
            have hstep : find_hwmon_path name (e :: rest) = find_hwmon_path name rest := by
              simp [find_hwmon_path, hh', hline, hp']
            rw [hstep] at hfind
            exact LocatesTo.skip_nomatch hh' hline hp' ((ih p).mp hfind)
    · intro hl
      cases hl with
      | found rest hh hline hp =>
        simp [find_hwmon_path, hh, hline, hp]
      | skip_hidden hh htail =>
        have hstep : find_hwmon_path name (e :: rest) = find_hwmon_path name rest := by
          simp [find_hwmon_path, hh]
        rw [hstep]
        exact (ih p).mpr htail
      | skip_nomatch hh hline hp htail =>
        have hstep : find_hwmon_path name (e :: rest) = find_hwmon_path name rest := by
          simp [find_hwmon_path, hh, hline, hp]
        rw [hstep]
        exact (ih p).mpr htail

/-- C4 counterexample: the locator does not implement an exact match on the
trimmed name attribute.  With a registry holding a single entry whose name
attribute is "cpufreq", the locator asked for "cpu" returns that entry's
path, although the entry's trimmed name attribute is not "cpu". -/
theorem c4_counterexample :
    find_hwmon_path cpu_name
        [{ dname := ['h', 'w', 'm', 'o', 'n', '0'],
           nameLine := some ['c', 'p', 'u', 'f', 'r', 'e', 'q', '\n'] }]
      = Except.ok (hwmon_dir_chars ++ ['h', 'w', 'm', 'o', 'n', '0'])
    ∧ trim_trailing_newline ['c', 'p', 'u', 'f', 'r', 'e', 'q', '\n'] ≠ cpu_name := by
  constructor
  · rfl
  · decide

/-- C4 amended: for every registry listing, the locator skips entries whose
name begins with the hidden-file marker, reads each remaining entry's name
attribute file, and returns the path of the first entry whose name line has
the requested target as a prefix (the trailing newline is thereby ignored,
but so is any longer name sharing the prefix); it fails when no entry
prefix-matches after exhausting the readable directory listing, and fails
when an entry's name attribute file cannot be read. -/
theorem c4_locator_amended (name : List Char) (entries : List HEntry) :
    (∀ p, find_hwmon_path name entries = Except.ok p ↔ LocatesTo name entries p) ∧
    (find_hwmon_path name entries = Except.error () ↔
        ∀ p, ¬ LocatesTo name entries p) := by
  refine ⟨fun p => find_hwmon_ok_iff name entries p, ?_, ?_⟩
  · intro herr p hl
    have hok := (find_hwmon_ok_iff name entries p).mpr hl
    rw [herr] at hok
    cases hok
  · intro hall
    cases hres : find_hwmon_path name entries with
    | error u =>
      cases u
      rfl
    | ok p =>
      exact absurd ((find_hwmon_ok_iff name entries p).mp hres) (hall p)

/-! ## Control loop of revision A

The `while (!got_sigterm)` loop of `set_fan_speed_from_temp`
(`src/src/main.c`, lines 219-247) is embedded as a recursion over a list of
per-iteration stimuli.  Each `IterIn` gives the value of the shutdown flag
observed at the loop head, the outcome of `read_double_from_file` on the
temperature file (`none` models a read or parse failure, `some t` the parsed
value), and whether `write_fan_speed`, if attempted that iteration, succeeds
(`write_fan_speed` itself is embedded separately below).  The result is
`none` when the stimuli are exhausted with the loop still running, and
`some (status, events)` when the loop exits, where `events` records the
`write_fan_speed` calls made inside the loop in order, each with the value
passed and whether it succeeded. -/

structure IterIn where
  sigterm : Bool
  tempRead : Option ℚ
  writeOk : Bool
deriving DecidableEq

structure WriteEv where
  value : ℚ
  ok : Bool
deriving DecidableEq

/-- Loop body of revision A, lines 219-247: check the flag; read and parse
the temperature (error breaks with -1); reject out-of-range temperatures
(break with -1); compute the target speed; if the difference from
`old_fan_speed` is at least 1 in absolute value, call `write_fan_speed`
(failure breaks with -1, success updates `old_fan_speed` to the written
value); sleep and repeat.  The C code binds the target to a local
`new_fan_speed`; it is written out inline here since the computation is
pure. -/
def loop_rev_a (min_temp max_temp : ℚ) (old_fan_speed : ℚ) :
    List IterIn → Option (Int × List WriteEv)
  | [] => none
  | s :: rest =>
    if s.sigterm then some (0, [])
    else
      match s.tempRead with
      | none => some (-1, [])
      | some temp =>
        if temp < -30000 ∨ temp > 150000 then some (-1, [])
        else
          if 1 ≤ speed_rev_a min_temp max_temp temp - old_fan_speed ∨
              speed_rev_a min_temp max_temp temp - old_fan_speed ≤ -1 then
            if s.writeOk then
              match loop_rev_a min_temp max_temp (speed_rev_a min_temp max_temp temp) rest with
              | none => none
              | some (st, evs) =>
                some (st, WriteEv.mk (speed_rev_a min_temp max_temp temp) true :: evs)
            else some (-1, [WriteEv.mk (speed_rev_a min_temp max_temp temp) false])
          else loop_rev_a min_temp max_temp old_fan_speed rest

/-- C3: in every loop iteration that reaches the hysteresis comparison (flag
clear, readable in-range temperature), a `write_fan_speed` call occurs if and
only if the absolute difference between the new target and the stored
`old_fan_speed` is at least 1; on a successful write the rest of the loop
runs with `old_fan_speed` set to exactly the value just written, and when no
write happens `old_fan_speed` is left unchanged. -/
theorem c3_hysteresis (min_temp max_temp old_fan_speed temp : ℚ)
    (s : IterIn) (rest : List IterIn)
    (hsig : s.sigterm = false) (htemp : s.tempRead = some temp)
    (hrange : ¬ (temp < -30000 ∨ temp > 150000)) :
    ((1 ≤ |speed_rev_a min_temp max_temp temp - old_fan_speed| ∧ s.writeOk = true) →
        loop_rev_a min_temp max_temp old_fan_speed (s :: rest)
          = (loop_rev_a min_temp max_temp (speed_rev_a min_temp max_temp temp) rest).map
              (fun r => (r.1, WriteEv.mk (speed_rev_a min_temp max_temp temp) true :: r.2))) ∧
    ((1 ≤ |speed_rev_a min_temp max_temp temp - old_fan_speed| ∧ s.writeOk = false) →
        loop_rev_a min_temp max_temp old_fan_speed (s :: rest)
          = some (-1, [WriteEv.mk (speed_rev_a min_temp max_temp temp) false])) ∧
    (|speed_rev_a min_temp max_temp temp - old_fan_speed| < 1 →
        loop_rev_a min_temp max_temp old_fan_speed (s :: rest)
          = loop_rev_a min_temp max_temp old_fan_speed rest) := by
  refine ⟨?_, ?_, ?_⟩
  · rintro ⟨habs, hw⟩
    have hcond : 1 ≤ speed_rev_a min_temp max_temp temp - old_fan_speed ∨
        speed_rev_a min_temp max_temp temp - old_fan_speed ≤ -1 := by
      rcases le_abs.mp habs with hx | hx
      · exact Or.inl hx
      · exact Or.inr (by linarith)
    simp only [loop_rev_a, hsig, htemp, Bool.false_eq_true, if_false]
    rw [if_neg hrange, if_pos hcond, if_pos hw]
    cases hres : loop_rev_a min_temp max_temp (speed_rev_a min_temp max_temp temp) rest with
    | none => rfl
    | some r =>
      obtain ⟨st, evs⟩ := r
      rfl
  · rintro ⟨habs, hw⟩
    have hcond : 1 ≤ speed_rev_a min_temp max_temp temp - old_fan_speed ∨
        speed_rev_a min_temp max_temp temp - old_fan_speed ≤ -1 := by
      rcases le_abs.mp habs with hx | hx
      · exact Or.inl hx
      · exact Or.inr (by linarith)
    simp only [loop_rev_a, hsig, htemp, Bool.false_eq_true, if_false]
    rw [if_neg hrange, if_pos hcond, hw]
    rfl
  · intro habs
    obtain ⟨hlo, hhi⟩ := abs_lt.mp habs
    have hncond : ¬ (1 ≤ speed_rev_a min_temp max_temp temp - old_fan_speed ∨
        speed_rev_a min_temp max_temp temp - old_fan_speed ≤ -1) := by
      rintro (hx | hx) <;> linarith
    simp only [loop_rev_a, hsig, htemp, Bool.false_eq_true, if_false]
    rw [if_neg hrange, if_neg hncond]

/-- C3 witness: the theorem applied with bounds 40000/80000, stored speed 0,
temperature 60000 (target 127.5) and a single non-shutdown stimulus. -/
theorem c3_hysteresis_witness :
    ((IterIn.mk false (some 60000) true).sigterm = false ∧
     (IterIn.mk false (some 60000) true).tempRead = some 60000 ∧
     ¬ ((60000 : ℚ) < -30000 ∨ (60000 : ℚ) > 150000)) ∧
    (((1 ≤ |speed_rev_a 40000 80000 60000 - 0| ∧
          (IterIn.mk false (some 60000) true).writeOk = true) →
        loop_rev_a 40000 80000 0 [IterIn.mk false (some 60000) true]
          = (loop_rev_a 40000 80000 (speed_rev_a 40000 80000 60000) []).map
              (fun r => (r.1, WriteEv.mk (speed_rev_a 40000 80000 60000) true :: r.2))) ∧
    ((1 ≤ |speed_rev_a 40000 80000 60000 - 0| ∧
          (IterIn.mk false (some 60000) true).writeOk = false) →
        loop_rev_a 40000 80000 0 [IterIn.mk false (some 60000) true]
          = some (-1, [WriteEv.mk (speed_rev_a 40000 80000 60000) false])) ∧
    (|speed_rev_a 40000 80000 60000 - 0| < 1 →
        loop_rev_a 40000 80000 0 [IterIn.mk false (some 60000) true]
          = loop_rev_a 40000 80000 0 [])) :=
  ⟨⟨rfl, rfl, by norm_num⟩,
   c3_hysteresis 40000 80000 0 60000 (IterIn.mk false (some 60000) true) []
     rfl rfl (by norm_num)⟩

/-- C5: when an iteration of the running loop reads a temperature outside the
plausible sensor bounds (below -30000 or above 150000), the loop exits with a
fatal error in that same iteration, performing no write at all in it (the
event list of the exit is empty) and ignoring the remaining stimuli (so no
clamped value and no speed derived from the reading is ever used). -/
theorem c5_range_abort (min_temp max_temp old_fan_speed temp : ℚ)
    (s : IterIn) (rest : List IterIn)
    (hsig : s.sigterm = false) (htemp : s.tempRead = some temp)
    (hrange : temp < -30000 ∨ temp > 150000) :
    loop_rev_a min_temp max_temp old_fan_speed (s :: rest) = some (-1, []) := by
  simp only [loop_rev_a, hsig, htemp, Bool.false_eq_true, if_false]
  rw [if_pos hrange]

/-- C5 witness: the theorem applied to a reading of 200000 sensor units. -/
theorem c5_range_abort_witness :
    ((IterIn.mk false (some 200000) true).sigterm = false ∧
     (IterIn.mk false (some 200000) true).tempRead = some 200000 ∧
     ((200000 : ℚ) < -30000 ∨ (200000 : ℚ) > 150000)) ∧
    loop_rev_a 40000 80000 0
        [IterIn.mk false (some 200000) true, IterIn.mk true none true]
      = some (-1, []) :=
  ⟨⟨rfl, rfl, Or.inr (by norm_num)⟩,
   c5_range_abort 40000 80000 0 200000 (IterIn.mk false (some 200000) true)
     [IterIn.mk true none true] rfl rfl (Or.inr (by norm_num))⟩

/-! ## The surrounding `set_fan_speed_from_temp` of revision A

Lines 168-265 of `src/src/main.c`.  The libc outcomes are oracles in a
`LoopWorld`: the two `calloc` calls, the two `snprintf` calls, the two
`fopen` calls, the initial `read_double_from_file` on the fan file, the loop
stimuli, the success of the final fail-safe `write_fan_speed` (whose return
value the C code ignores), and the two `fclose` calls.  On the failure of
any step before the loop the C code returns -1 through the cleanup labels;
the goto taken when the initial actuator read fails jumps to
`cleanup_cpu_file`, past both the fail-safe write and `fclose(fan_file)`. -/

structure LoopWorld where
  allocCpuPathOk : Bool
  allocFanPathOk : Bool
  sprintfCpuOk : Bool
  cpuOpenOk : Bool
  sprintfFanOk : Bool
  fanOpenOk : Bool
  initRead : Option ℚ
  stims : List IterIn
  failsafeOk : Bool
  fanCloseOk : Bool
  cpuCloseOk : Bool
deriving DecidableEq

def set_fan_speed_from_temp (w : LoopWorld) (min_temp max_temp : ℚ) :
    Option (Int × List WriteEv) :=
  if !(w.allocCpuPathOk && w.allocFanPathOk && w.sprintfCpuOk && w.cpuOpenOk
      && w.sprintfFanOk && w.fanOpenOk) then some (-1, [])
  else
    match w.initRead with
    | none => some (-1, [])
    | some old_fan_speed =>
      match loop_rev_a min_temp max_temp old_fan_speed w.stims with
      | none => none
      | some (st, evs) =>
        some (if w.cpuCloseOk then (if w.fanCloseOk then st else -1) else -1,
          evs ++ [WriteEv.mk 255 w.failsafeOk])

/-- C2 counterexample: when the initial read of the actuator's value fails at
startup, revision A returns the error without attempting any write at all —
in particular no fail-safe write of 255 — because the goto jumps past the
fail-safe call.  The event list of the exit is empty. -/
theorem c2_counterexample :
    set_fan_speed_from_temp
        (LoopWorld.mk true true true true true true none [] true true true)
        40000 80000
      = some (-1, []) := rfl

/-- C2 amended: on every exit of the running loop — shutdown flag, read or
parse failure, temperature-bounds violation, or write failure — revision A
attempts the fail-safe write of 255 as the last write event before
returning, and a loop error is still propagated (and a clean exit status
additionally requires both fclose calls to succeed).  However, when the
initial actuator read fails at startup, the function returns the error with
no write attempted at all. -/
theorem c2_failsafe_amended (w : LoopWorld) (min_temp max_temp : ℚ)
    (hflags : (w.allocCpuPathOk && w.allocFanPathOk && w.sprintfCpuOk && w.cpuOpenOk
        && w.sprintfFanOk && w.fanOpenOk) = true) :
    (w.initRead = none →
        set_fan_speed_from_temp w min_temp max_temp = some (-1, [])) ∧
    (∀ old_fan_speed st evs, w.initRead = some old_fan_speed →
      set_fan_speed_from_temp w min_temp max_temp = some (st, evs) →
      ∃ st₀ evs₀,
        loop_rev_a min_temp max_temp old_fan_speed w.stims = some (st₀, evs₀)
        ∧ evs = evs₀ ++ [WriteEv.mk 255 w.failsafeOk]
        ∧ (st₀ = -1 → st = -1)
        ∧ (st = 0 → st₀ = 0 ∧ w.fanCloseOk = true ∧ w.cpuCloseOk = true)) := by
  constructor
  · intro hinit
    simp [set_fan_speed_from_temp, hflags, hinit]
  · intro old_fan_speed st evs hinit hrun
    simp only [set_fan_speed_from_temp, hflags, Bool.not_true, Bool.false_eq_true,
      if_false, hinit] at hrun
    cases hres : loop_rev_a min_temp max_temp old_fan_speed w.stims with
    | none =>
      rw [hres] at hrun
      cases hrun
    | some r =>
      obtain ⟨st₀, evs₀⟩ := r
      rw [hres] at hrun
      simp only [Option.some.injEq, Prod.mk.injEq] at hrun
      obtain ⟨hst, hevs⟩ := hrun
      refine ⟨st₀, evs₀, rfl, hevs.symm, ?_, ?_⟩
      · intro h0
        rw [← hst, h0]
        by_cases h1 : w.cpuCloseOk = true <;> by_cases h2 : w.fanCloseOk = true <;>
          simp [h1, h2]
      · intro h0
        rw [← hst] at h0
        by_cases h1 : w.cpuCloseOk = true
        · by_cases h2 : w.fanCloseOk = true
          · rw [if_pos h1, if_pos h2] at h0
            exact ⟨h0, h2, h1⟩
          · rw [if_pos h1, if_neg h2] at h0
            cases h0
        · rw [if_neg h1] at h0
          cases h0

/-- C2 amended witness: the theorem applied to a world where every libc step
succeeds, the initial actuator value reads as 100, and the first loop
boundary observes the shutdown flag. -/
theorem c2_failsafe_amended_witness :
    ((true && true && true && true && true && true) = true) ∧
    (((LoopWorld.mk true true true true true true (some 100)
          [IterIn.mk true none true] true true true).initRead = none →
        set_fan_speed_from_temp
          (LoopWorld.mk true true true true true true (some 100)
            [IterIn.mk true none true] true true true) 40000 80000
          = some (-1, [])) ∧
    (∀ old_fan_speed st evs,
      (LoopWorld.mk true true true true true true (some 100)
          [IterIn.mk true none true] true true true).initRead = some old_fan_speed →
      set_fan_speed_from_temp
          (LoopWorld.mk true true true true true true (some 100)
            [IterIn.mk true none true] true true true) 40000 80000
        = some (st, evs) →
      ∃ st₀ evs₀,
        loop_rev_a 40000 80000 old_fan_speed
            (LoopWorld.mk true true true true true true (some 100)
              [IterIn.mk true none true] true true true).stims = some (st₀, evs₀)
        ∧ evs = evs₀ ++ [WriteEv.mk 255
            (LoopWorld.mk true true true true true true (some 100)
              [IterIn.mk true none true] true true true).failsafeOk]
        ∧ (st₀ = -1 → st = -1)
        ∧ (st = 0 → st₀ = 0 ∧
            (LoopWorld.mk true true true true true true (some 100)
              [IterIn.mk true none true] true true true).fanCloseOk = true ∧
            (LoopWorld.mk true true true true true true (some 100)
              [IterIn.mk true none true] true true true).cpuCloseOk = true))) :=
  ⟨rfl,
   c2_failsafe_amended
     (LoopWorld.mk true true true true true true (some 100)
       [IterIn.mk true none true] true true true) 40000 80000 rfl⟩

/-! ## write_fan_speed of revision A

Lines 110-140 of `src/src/main.c`.  The function clamps the value into
[0, 255] with two compare-and-set steps, formats it with
`snprintf(value_str, 5, "%.0f\n", value)` into a zero-initialised 5-byte
buffer (so the buffer holds at most 4 characters of the formatted text, the
rest staying NUL), writes the full 5-byte buffer with `fwrite`, fails if the
stream error flag is set, and finally fails if `fflush` fails.  `%.0f`
rounds to the nearest integer; rounding of exact halves is modelled with
Mathlib's `round` (the C library rounds halves to even — the claims do not
depend on the tie direction).  Because the domain after clamping is
[0, 255], at most three decimal digits occur, which `dec_digits` renders
positionally. -/

/-- The two sequential compare-and-set steps of lines 112-122 (a negative
value is replaced by 0, which never triggers the second test, so the
sequence is this nested conditional). -/
def clamp_fan_speed (v : ℚ) : ℚ :=
  if v < 0 then 0 else if v > 255 then 255 else v

/-- Decimal digit characters of a number below 1000, positionally, as
`%.0f` prints it for the clamped fan-speed domain. -/
def dec_digits (n : ℕ) : List Char :=
  if n < 10 then [Char.ofNat (48 + n)]
  else if n < 100 then [Char.ofNat (48 + n / 10), Char.ofNat (48 + n % 10)]
  else [Char.ofNat (48 + n / 100), Char.ofNat (48 + n / 10 % 10), Char.ofNat (48 + n % 10)]

def nul_char : Char := Char.ofNat 0

/-- The text `%.0f\n` produces for the clamped value. -/
def fan_speed_line (v : ℚ) : List Char :=
  dec_digits ((round (clamp_fan_speed v)).toNat) ++ ['\n']

/-- The 5 bytes `fwrite` sends: the buffer after `snprintf` with size 5
(truncation to 4 characters plus the zero-initialised remainder). -/
def fan_speed_bytes (v : ℚ) : List Char :=
  (fan_speed_line v).take 4
    ++ List.replicate (5 - ((fan_speed_line v).take 4).length) nul_char

/-- Revision A `write_fan_speed`: the bytes written on success, `none` when
the `fwrite` sets the error flag or the `fflush` fails. -/
def write_fan_speed (v : ℚ) (fwriteOk fflushOk : Bool) : Option (List Char) :=
  if fwriteOk && fflushOk then some (fan_speed_bytes v) else none

theorem dec_digits_length_le (n : ℕ) : (dec_digits n).length ≤ 3 := by
  unfold dec_digits
  split_ifs <;> simp

theorem fan_speed_line_length_le (v : ℚ) : (fan_speed_line v).length ≤ 4 := by
  unfold fan_speed_line
  rw [List.length_append]
  have := dec_digits_length_le ((round (clamp_fan_speed v)).toNat)
  simp only [List.length_singleton]
  omega

/-- C8: for every input value, revision A's `write_fan_speed` first clamps
the value into [0, 255] (so the rounded integer is at most 255 and its
decimal text fits the buffer untruncated), then sends exactly 5 bytes
consisting of the decimal digits of the rounded clamped value, a newline,
and NUL padding; the write succeeds exactly when both the `fwrite` and the
`fflush` succeed and fails otherwise. -/
theorem c8_write_clamped_format (v : ℚ) (fwriteOk fflushOk : Bool) :
    (0 ≤ clamp_fan_speed v ∧ clamp_fan_speed v ≤ 255) ∧
    (round (clamp_fan_speed v)).toNat ≤ 255 ∧
    (fan_speed_bytes v).length = 5 ∧
    fan_speed_bytes v
      = dec_digits ((round (clamp_fan_speed v)).toNat) ++ '\n' ::
          List.replicate (4 - (dec_digits ((round (clamp_fan_speed v)).toNat)).length)
            nul_char ∧
    (write_fan_speed v fwriteOk fflushOk = some (fan_speed_bytes v) ↔
        (fwriteOk = true ∧ fflushOk = true)) ∧
    (write_fan_speed v fwriteOk fflushOk = none ↔
        (fwriteOk = false ∨ fflushOk = false)) := by
  have hclamp : 0 ≤ clamp_fan_speed v ∧ clamp_fan_speed v ≤ 255 := by
    unfold clamp_fan_speed
    split_ifs with h1 h2
    · constructor <;> norm_num
    · constructor <;> norm_num
    · exact ⟨not_lt.mp h1, not_lt.mp h2⟩
  have hround : round (clamp_fan_speed v) ≤ 255 := by
    rw [round_eq]
    have h256 : (⌊clamp_fan_speed v + 1 / 2⌋ : ℤ) ≤ ⌊(255 : ℚ) + 1 / 2⌋ :=
      Int.floor_le_floor (by linarith [hclamp.2])
    have hval : (⌊(255 : ℚ) + 1 / 2⌋ : ℤ) = 255 := by norm_num
    omega
  have hroundNat : (round (clamp_fan_speed v)).toNat ≤ 255 := by omega
  have htake : (fan_speed_line v).take 4 = fan_speed_line v :=
    List.take_of_length_le (fan_speed_line_length_le v)
  have hlen := fan_speed_line_length_le v
  refine ⟨hclamp, hroundNat, ?_, ?_, ?_, ?_⟩
  · unfold fan_speed_bytes
    rw [htake, List.length_append, List.length_replicate]
    omega
  · unfold fan_speed_bytes
    rw [htake]
    have hline : fan_speed_line v
        = dec_digits ((round (clamp_fan_speed v)).toNat) ++ ['\n'] := rfl
    rw [hline, List.length_append, List.length_singleton, List.append_assoc,
      List.singleton_append]
    have hcount : 5 - ((dec_digits ((round (clamp_fan_speed v)).toNat)).length + 1)
        = 4 - (dec_digits ((round (clamp_fan_speed v)).toNat)).length := by omega
    rw [hcount]
  · cases fwriteOk <;> cases fflushOk <;> simp [write_fan_speed]
  · cases fwriteOk <;> cases fflushOk <;> simp [write_fan_speed]

/-! ## main of revision A

Lines 267-356 of `src/src/main.c`.  A `MainWorld` supplies the outcome of
each libc step in source order: `sigemptyset`, `sigaction`, the argument
count, the two `strtod` calls (`none` models errno being set), the two
`calloc` calls, `opendir` (`none` when it fails, otherwise the directory
listing, which `rewinddir` lets both lookups traverse identically), the
world of `set_fan_speed_from_temp`, and `closedir`.  The result is the
process exit status (0 for `EXIT_SUCCESS`, 1 for `EXIT_FAILURE`), or `none`
when the control loop never exits within its stimuli. -/

structure MainWorld where
  sigemptyOk : Bool
  sigactionOk : Bool
  argc : Nat
  minTempParse : Option ℚ
  maxTempParse : Option ℚ
  allocCpuHwOk : Bool
  allocFanHwOk : Bool
  registry : Option (List HEntry)
  loopw : LoopWorld
  closedirOk : Bool
deriving DecidableEq

def main_rev_a (w : MainWorld) : Option Int :=
  if !w.sigemptyOk then some 1
  else if !w.sigactionOk then some 1
  else if w.argc ≠ 3 then some 1
  else
    match w.minTempParse with
    | none => some 1
    | some min_temp =>
      match w.maxTempParse with
      | none => some 1
      | some max_temp =>
        if !w.allocCpuHwOk then some 1
        else if !w.allocFanHwOk then some 1
        else
          match w.registry with
          | none => some 1
          | some entries =>
            match find_hwmon_path cpu_name entries with
            | Except.error _ => some 1
            | Except.ok _ =>
              match find_hwmon_path fan_name entries with
              | Except.error _ => some 1
              | Except.ok _ =>
                match set_fan_speed_from_temp w.loopw min_temp max_temp with
                | none => none
                | some (st, _) =>
                  some (if w.closedirOk then (if st = 0 then 0 else 1) else 1)

/-- Lines 284-291: a usage message goes to the error stream exactly when the
argument count is wrong and the program name is present (`argc ≥ 1`; for
`argc < 1` a different diagnostic is printed instead). -/
def usage_shown (argc : Nat) : Bool :=
  decide (argc ≠ 3) && decide (1 ≤ argc)

/-- C9: the process exits 0 exactly on a clean run (every setup step
succeeds, both devices are discovered, and the loop exits with status 0,
which revision A's loop produces only on the signal-triggered shutdown
path); it exits non-zero on a wrong argument count, an argument parse
failure, an unreadable registry, a failed device discovery, or a loop that
ends with an error status; and every exit status is 0 or 1. -/
theorem c9_exit_codes (w : MainWorld) :
    (∀ st : Int, main_rev_a w = some st → st = 0 ∨ st = 1) ∧
    (w.argc ≠ 3 → main_rev_a w = some 1) ∧
    (w.minTempParse = none ∨ w.maxTempParse = none → main_rev_a w = some 1) ∧
    (w.registry = none → main_rev_a w = some 1) ∧
    (∀ entries, w.registry = some entries →
      (find_hwmon_path cpu_name entries = Except.error () ∨
       find_hwmon_path fan_name entries = Except.error ()) →
      main_rev_a w = some 1) ∧
    (∀ min_temp max_temp st evs,
      w.minTempParse = some min_temp → w.maxTempParse = some max_temp →
      set_fan_speed_from_temp w.loopw min_temp max_temp = some (st, evs) →
      st ≠ 0 → main_rev_a w = some 1) ∧
    (∀ min_temp max_temp entries p q evs,
      w.sigemptyOk = true → w.sigactionOk = true → w.argc = 3 →
      w.minTempParse = some min_temp → w.maxTempParse = some max_temp →
      w.allocCpuHwOk = true → w.allocFanHwOk = true →
      w.registry = some entries →
      find_hwmon_path cpu_name entries = Except.ok p →
      find_hwmon_path fan_name entries = Except.ok q →
      set_fan_speed_from_temp w.loopw min_temp max_temp = some (0, evs) →
      w.closedirOk = true →
      main_rev_a w = some 0) := by
  obtain ⟨se, sa, argc, mnp, mxp, a1, a2, reg, lw, cd⟩ := w
  refine ⟨?_, ?_, ?_, ?_, ?_, ?_, ?_⟩
  · intro st h
    unfold main_rev_a at h
    repeat' split at h
    all_goals simp_all
  · intro h
    unfold main_rev_a
    repeat' split
    all_goals simp_all
  · intro h
    unfold main_rev_a
    repeat' split
    all_goals simp_all
  · intro h
    unfold main_rev_a
    repeat' split
    all_goals simp_all
  · intro entries hreg hfind
    unfold main_rev_a
    repeat' split
    all_goals simp_all
  · intro min_temp max_temp st evs hmn hmx hset hst
    unfold main_rev_a
    repeat' split
    all_goals simp_all
  · intro min_temp max_temp entries p q evs hse hsa hargc hmn hmx ha1 ha2 hreg
      hcpu hfan hset hcd
    subst hse hsa hargc hmn hmx ha1 ha2 hreg hcd
    simp only [main_rev_a]
    simp [hcpu, hfan, hset]

/-- Concrete registry: a cpu entry and a pwmfan entry. -/
def demo_registry : List HEntry :=
  [HEntry.mk ['h', 'w', 'm', 'o', 'n', '0'] (some ['c', 'p', 'u', '\n']),
   HEntry.mk ['h', 'w', 'm', 'o', 'n', '1'] (some ['p', 'w', 'm', 'f', 'a', 'n', '\n'])]

/-- Concrete loop world: all libc steps succeed, the actuator reads back
100, and the first loop boundary observes the shutdown flag. -/
def demo_loopw : LoopWorld :=
  LoopWorld.mk true true true true true true (some 100) [IterIn.mk true none true]
    true true true

/-- Concrete main world for a clean signal-triggered run. -/
def demo_mainw : MainWorld :=
  MainWorld.mk true true 3 (some 40000) (some 80000) true true (some demo_registry)
    demo_loopw true

/-- C9 witness: the theorem's clean-run part applied to the concrete world,
discharging every hypothesis by evaluation. -/
theorem c9_exit_codes_witness : main_rev_a demo_mainw = some 0 :=
  (c9_exit_codes demo_mainw).2.2.2.2.2.2 40000 80000 demo_registry
    (hwmon_dir_chars ++ ['h', 'w', 'm', 'o', 'n', '0'])
    (hwmon_dir_chars ++ ['h', 'w', 'm', 'o', 'n', '1'])
    [WriteEv.mk 255 true]
    rfl rfl rfl rfl rfl rfl rfl rfl rfl rfl rfl rfl

/-- The same main world with a third positional argument (`argc = 4`). -/
def demo_mainw_argc4 : MainWorld :=
  MainWorld.mk true true 4 (some 40000) (some 80000) true true (some demo_registry)
    demo_loopw true

/-- C6 counterexample: the program does not accept three positional
arguments.  In a world that would run cleanly with two positional arguments
(exit status 0), supplying a third positional argument (`argc = 4`) makes
`main` reject the invocation with `EXIT_FAILURE` instead of treating the
third value as a `min_fan_speed` floor. -/
theorem c6_counterexample :
    main_rev_a demo_mainw_argc4 = some 1 ∧ main_rev_a demo_mainw = some 0 :=
  ⟨rfl, rfl⟩

/-- C6 amended: the process accepts exactly two positional floating-point
arguments `min_temp max_temp`; any other count (including three positional
arguments) exits non-zero, with the usage message printed whenever the
program name is present; there is no `min_fan_speed` argument, the mapping
floor is fixed at 0, and the configuration of the claim's example maps
temperature 60000 to 127.5 (not 152.5). -/
theorem c6_args_amended :
    (∀ w : MainWorld, w.argc ≠ 3 → main_rev_a w = some 1) ∧
    (∀ n : Nat, n ≠ 3 → 1 ≤ n → usage_shown n = true) ∧
    speed_rev_a 40000 80000 60000 = 255 / 2 := by
  refine ⟨?_, ?_, ?_⟩
  · intro w h
    obtain ⟨se, sa, argc, mnp, mxp, a1, a2, reg, lw, cd⟩ := w
    unfold main_rev_a
    repeat' split
    all_goals simp_all
  · intro n h1 h2
    simp [usage_shown, h1, h2]
  · unfold speed_rev_a
    norm_num

/-- C6 amended witness: the first part applied to the concrete world with a
third positional argument. -/
theorem c6_args_amended_witness : main_rev_a demo_mainw_argc4 = some 1 :=
  c6_args_amended.1 demo_mainw_argc4 (by decide)

end Rockpro64Fan
